import Mathlib

/-
Verification of the gpx2energy point-derivation chain and track aggregation
against the code in src/calculator/track_physics.py (the canonical,
class-composed variant; src/calculator/gpx2energy.py and
src/tools/gpx2energy.py differ only in formulas not examined here).

Modelling conventions:
* Python floats are modelled as real numbers.
* A raised-and-not-caught exception (ZeroDivisionError in Point.speed,
  AssertionError in Point.power_at_wheels) is modelled as `none`; a value
  returned normally is `some v`.  Point.incline_sine / Point.incline_cosine
  catch their ZeroDivisionError internally and so stay total.
* A track's samples are modelled as a stream `s : Nat -> Sample`; point i of
  the track reads samples 0..i exactly as the Python Point at index i does.
  `Sample.flat` is the haversine flat_distance between the previous and the
  current raw GPS fix (the Geodesy computation on lat/lon is external to
  every claim and is taken as an input); it is read only at indices i >= 1,
  matching Point.flat_distance which returns 0 for the first point.
-/

namespace Gpx2Energy

/-- `Earth.g` [m/s^2]: gravitational acceleration constant of class Earth. -/
noncomputable def Earth.g : ℝ := 9.8105

/-- `Earth.airDensity` [kg/m^3]: air density constant of class Earth. -/
noncomputable def Earth.airDensity : ℝ := 1.2922

/-- The raw attributes of class Car (the vehicle profile). -/
structure Car where
  cx : ℝ
  frontalArea : ℝ
  mass : ℝ
  rrc : ℝ
  power : ℝ
  maxSpeed : ℝ
  batteryPackEfficiency : ℝ
  controllerEfficiency : ℝ
  motorEfficiency : ℝ
  gearboxEfficiency : ℝ

/-- Car.cda: drag area, `cx * frontal_area`. -/
noncomputable def Car.cda (c : Car) : ℝ := c.cx * c.frontalArea

/-- Car.weight: `mass * Earth.g`. -/
noncomputable def Car.weight (c : Car) : ℝ := c.mass * Earth.g

/-- Car.electrical_efficiency. -/
noncomputable def Car.electricalEfficiency (c : Car) : ℝ :=
  c.batteryPackEfficiency * c.controllerEfficiency * c.motorEfficiency

/-- Car.mechanical_efficiency. -/
noncomputable def Car.mechanicalEfficiency (c : Car) : ℝ := c.gearboxEfficiency

/-- Car.efficiency: `electrical_efficiency * mechanical_efficiency`. -/
noncomputable def Car.efficiency (c : Car) : ℝ := c.electricalEfficiency * c.mechanicalEfficiency

/-- The class-level default attribute values of Car (Smart Fortwo W450),
from track_physics.py: `max_speed = 100*1000/3600.0` etc. -/
noncomputable def defaultCar : Car :=
  { cx := 0.37
    frontalArea := 1.95
    mass := 880
    rrc := 0.01355
    power := 40000
    maxSpeed := 100 * 1000 / 3600
    batteryPackEfficiency := 0.95
    controllerEfficiency := 0.95
    motorEfficiency := 0.87
    gearboxEfficiency := 0.9 }

/-- The `properties` dict accepted by `Car.__init__(self, properties={})`
in gpx2energy.py: each key is either absent or overrides the class-level
default. -/
structure CarOverrides where
  cx : Option ℝ := none
  frontalArea : Option ℝ := none
  mass : Option ℝ := none
  rrc : Option ℝ := none
  power : Option ℝ := none
  maxSpeed : Option ℝ := none
  batteryPackEfficiency : Option ℝ := none
  controllerEfficiency : Option ℝ := none
  motorEfficiency : Option ℝ := none
  gearboxEfficiency : Option ℝ := none

/-- `Car.__init__(self, properties={})`: `vars(self).update(properties)`.
Every supplied value is stored as-is; absent keys fall back to the class
defaults.  The constructor has no validation and no failure path. -/
noncomputable def carInit (p : CarOverrides) : Car :=
  { cx := p.cx.getD defaultCar.cx
    frontalArea := p.frontalArea.getD defaultCar.frontalArea
    mass := p.mass.getD defaultCar.mass
    rrc := p.rrc.getD defaultCar.rrc
    power := p.power.getD defaultCar.power
    maxSpeed := p.maxSpeed.getD defaultCar.maxSpeed
    batteryPackEfficiency := p.batteryPackEfficiency.getD defaultCar.batteryPackEfficiency
    controllerEfficiency := p.controllerEfficiency.getD defaultCar.controllerEfficiency
    motorEfficiency := p.motorEfficiency.getD defaultCar.motorEfficiency
    gearboxEfficiency := p.gearboxEfficiency.getD defaultCar.gearboxEfficiency }

/-- Modelled from the spec: the VehicleProfile validity invariant of
spec sections 3 and 4.2 ("all efficiencies in (0,1]; mass, drag area,
rated power, top speed > 0").  No corresponding check exists anywhere in
the source; this predicate exists only to compare the spec's claimed
construction-time validation with the actual constructor `carInit`. -/
def specProfileValid (c : Car) : Prop :=
  0 < c.mass ∧ 0 < c.cda ∧ 0 < c.power ∧ 0 < c.maxSpeed ∧
  (0 < c.batteryPackEfficiency ∧ c.batteryPackEfficiency ≤ 1) ∧
  (0 < c.controllerEfficiency ∧ c.controllerEfficiency ≤ 1) ∧
  (0 < c.motorEfficiency ∧ c.motorEfficiency ≤ 1) ∧
  (0 < c.gearboxEfficiency ∧ c.gearboxEfficiency ≤ 1)

/-- One raw sample of a track.  `flat` is the haversine flat_distance from
the previous sample (external Geodesy output, read only at index >= 1),
`ele` the elevation [m], `time` the timestamp [s]. -/
structure Sample where
  flat : ℝ
  ele : ℝ
  time : ℝ

/-- Point.flat_distance: the haversine distance from the previous point,
or 0 for the first point of the track. -/
noncomputable def flatDistance (s : ℕ → Sample) : ℕ → ℝ
  | 0 => 0
  | (i + 1) => (s (i + 1)).flat

/-- Point.climb: `elevation - previous.elevation`, or 0 for the first point. -/
noncomputable def climb (s : ℕ → Sample) : ℕ → ℝ
  | 0 => 0
  | (i + 1) => (s (i + 1)).ele - (s i).ele

/-- Point.distance: `sqrt(flat_distance**2 + climb**2)`. -/
noncomputable def distance (s : ℕ → Sample) (i : ℕ) : ℝ :=
  Real.sqrt (flatDistance s i ^ 2 + climb s i ^ 2)

/-- The `sine` local of Point.incline_sine: `climb / distance`, with the
ZeroDivisionError on `distance = 0` caught and replaced by the sentinel 1. -/
noncomputable def sineRaw (s : ℕ → Sample) (i : ℕ) : ℝ :=
  if distance s i = 0 then 1 else climb s i / distance s i

/-- Point.incline_sine: the raw sine if `-0.25 < sine < 0.25`, else the
previous point's incline_sine, or 0 for the first point. -/
noncomputable def inclineSine (s : ℕ → Sample) : ℕ → ℝ
  | 0 =>
    if -0.25 < sineRaw s 0 ∧ sineRaw s 0 < 0.25 then sineRaw s 0 else 0
  | (i + 1) =>
    if -0.25 < sineRaw s (i + 1) ∧ sineRaw s (i + 1) < 0.25 then sineRaw s (i + 1)
    else inclineSine s i

/-- The `cosine` local of Point.incline_cosine: `flat_distance / distance`,
with the ZeroDivisionError on `distance = 0` caught and replaced by the
sentinel 0. -/
noncomputable def cosineRaw (s : ℕ → Sample) (i : ℕ) : ℝ :=
  if distance s i = 0 then 0 else flatDistance s i / distance s i

/-- Point.incline_cosine: the raw cosine if `0.75 < cosine <= 1`, else the
previous point's incline_cosine, or 1 for the first point. -/
noncomputable def inclineCosine (s : ℕ → Sample) : ℕ → ℝ
  | 0 =>
    if 0.75 < cosineRaw s 0 ∧ cosineRaw s 0 ≤ 1 then cosineRaw s 0 else 1
  | (i + 1) =>
    if 0.75 < cosineRaw s (i + 1) ∧ cosineRaw s (i + 1) ≤ 1 then cosineRaw s (i + 1)
    else inclineCosine s i

/-- Point.period: `total_seconds(time - previous.time)`, or 1 for the first
point of the track. -/
noncomputable def period (s : ℕ → Sample) : ℕ → ℝ
  | 0 => 1
  | (i + 1) => (s (i + 1)).time - (s i).time

/-- Point.speed: `speed = distance / period` (an uncaught ZeroDivisionError,
hence `none`, when the period is 0); the raw quotient if
`0 <= speed < car.max_speed`, else the previous point's speed, or 0 for the
first point. -/
noncomputable def speed (car : Car) (s : ℕ → Sample) : ℕ → Option ℝ
  | 0 =>
    if period s 0 = 0 then none
    else if 0 ≤ distance s 0 / period s 0 ∧ distance s 0 / period s 0 < car.maxSpeed then
      some (distance s 0 / period s 0)
    else some 0
  | (i + 1) =>
    if period s (i + 1) = 0 then none
    else if 0 ≤ distance s (i + 1) / period s (i + 1) ∧
        distance s (i + 1) / period s (i + 1) < car.maxSpeed then
      some (distance s (i + 1) / period s (i + 1))
    else speed car s i

/-- Point.acceleration: the raw quotient `(speed - previous.speed) / period`
when both a previous and a previous-previous point exist (0 otherwise),
accepted if `Earth.g/2 < acceleration < Earth.g/2`, else the previous
point's acceleration, or 0 for the first point.  Computing either speed may
raise (be `none`); the division itself cannot, because a `some` speed at
index i+2 implies a nonzero period there. -/
noncomputable def acceleration (car : Car) (s : ℕ → Sample) : ℕ → Option ℝ
  | 0 =>
    if Earth.g / 2 < (0 : ℝ) ∧ (0 : ℝ) < Earth.g / 2 then some 0 else some 0
  | 1 =>
    if Earth.g / 2 < (0 : ℝ) ∧ (0 : ℝ) < Earth.g / 2 then some 0
    else acceleration car s 0
  | (i + 2) =>
    match speed car s (i + 2), speed car s (i + 1) with
    | some v, some v' =>
      if Earth.g / 2 < (v - v') / period s (i + 2) ∧
          (v - v') / period s (i + 2) < Earth.g / 2 then
        some ((v - v') / period s (i + 2))
      else acceleration car s (i + 1)
    | _, _ => none

/-- Point.air_drag: `0.5 * Earth.air_density * car.cda * speed**2`. -/
noncomputable def airDrag (car : Car) (s : ℕ → Sample) (i : ℕ) : Option ℝ :=
  (speed car s i).map fun v => 0.5 * Earth.airDensity * car.cda * v ^ 2

/-- Point.rolling_resistance: `car.rrc * car.weight * incline_cosine`. -/
noncomputable def rollingResistance (car : Car) (s : ℕ → Sample) (i : ℕ) : ℝ :=
  car.rrc * car.weight * inclineCosine s i

/-- Point.incline_force: `car.weight * incline_sine`. -/
noncomputable def inclineForce (car : Car) (s : ℕ → Sample) (i : ℕ) : ℝ :=
  car.weight * inclineSine s i

/-- Point.acceleration_force: `car.mass * acceleration`. -/
noncomputable def accelerationForce (car : Car) (s : ℕ → Sample) (i : ℕ) : Option ℝ :=
  (acceleration car s i).map fun a => car.mass * a

/-- Point.force: `air_drag + rolling_resistance + incline_force +
acceleration_force`; `none` when one of the two fallible summands raised. -/
noncomputable def force (car : Car) (s : ℕ → Sample) (i : ℕ) : Option ℝ :=
  match airDrag car s i, accelerationForce car s i with
  | some d, some a =>
    some (d + rollingResistance car s i + inclineForce car s i + a)
  | _, _ => none

/-- Point.power_at_wheels: `power = force * speed`, then
`assert -car.power * 2 < power < car.power * 1.2`; an assertion failure
(the SanityCheckError of the spec) is `none`. -/
noncomputable def powerAtWheels (car : Car) (s : ℕ → Sample) (i : ℕ) : Option ℝ :=
  match force car s i, speed car s i with
  | some f, some v =>
    if -car.power * 2 < f * v ∧ f * v < car.power * 1.2 then some (f * v) else none
  | _, _ => none

/-- Track.sliding_window: for each start index `i` in
`xrange(len(points) - width)` yield the pair of the arithmetic mean of the
attribute over `points[i:i+width]` and that window, in ascending order of
`i`.  `max()` / `min()` over the yielded sequence (the peak search) raises
(the InsufficientDataError of the spec) exactly when this list is empty. -/
def slidingWindow {P : Type} {α : Type} [Field α] (points : List P)
    (attrib : P → α) (width : ℕ) : List (α × List P) :=
  (List.range (points.length - width)).map fun i =>
    let window := (points.drop i).take width
    let values := window.map attrib
    (values.sum / (values.length : α), window)

/-- A degenerate track: every sample at the same place and elevation, one
second apart.  Its flat distances and climbs are all 0. -/
noncomputable def constSamples : ℕ → Sample := fun n => ⟨0, 0, (n : ℝ)⟩

/-- A track sampled once per second at constant elevation whose flat
distances are 10 m into point 1 and 12 m into every later point, so the
derived speeds are 0, 10, 12, ... m/s. -/
noncomputable def rampSamples : ℕ → Sample := fun n => ⟨if n = 1 then 10 else 12, 0, (n : ℝ)⟩

/-- A track whose first two samples carry the same timestamp (period 0 at
index 1): every sample at the same place, elevation 0, time `max (n-1) 0`. -/
noncomputable def stuckClockSamples : ℕ → Sample := fun n => ⟨0, 0, (n - 1 : ℕ)⟩

/-- A track sampled once per second at constant elevation that jumps 100 m
of flat distance into every point after the first: its raw speed
100 m/s exceeds the default car's top speed of 1000/36 m/s. -/
noncomputable def fastSamples : ℕ → Sample := fun n => ⟨100, 0, (n : ℝ)⟩

/-- The Car built by `Car.__init__` from a properties dict carrying a
battery-pack efficiency of 1.5 (all other attributes left at the class
defaults). -/
noncomputable def badEfficiencyCar : Car := carInit { batteryPackEfficiency := some 1.5 }

/- ------------------------------------------------------------------ -/
/- Helper lemmas shared by the claim theorems.                         -/
/- ------------------------------------------------------------------ -/

/-- The acceleration plausibility test `Earth.g/2 < a < Earth.g/2` of the
source is an empty interval: no real number satisfies it. -/
theorem accel_guard_empty (a : ℝ) : ¬ (Earth.g / 2 < a ∧ a < Earth.g / 2) :=
  fun h => absurd (h.1.trans h.2) (lt_irrefl _)

/-- Any acceleration the derivation chain actually returns is 0: the
acceptance branch is unreachable, so every value chains down to the
index-0 default. -/
theorem acceleration_eq_zero_of_some (car : Car) (s : ℕ → Sample) :
    ∀ i a, acceleration car s i = some a → a = 0 := by
  intro i
  induction i using Nat.strong_induction_on with
  | _ i ih =>
    match i with
    | 0 =>
      intro a h
      rw [acceleration, if_neg (accel_guard_empty 0)] at h
      exact (Option.some_inj.mp h).symm
    | 1 =>
      intro a h
      rw [acceleration, if_neg (accel_guard_empty 0)] at h
      exact ih 0 (by omega) a h
    | (j + 2) =>
      intro a h
      rw [acceleration] at h
      cases hv : speed car s (j + 2) with
      | none => rw [hv] at h; exact absurd h (by simp)
      | some v =>
        cases hv' : speed car s (j + 1) with
        | none => rw [hv, hv'] at h; exact absurd h (by simp)
        | some v' =>
          rw [hv, hv'] at h
          simp only [if_neg (accel_guard_empty ((v - v') / period s (j + 2)))] at h
          exact ih (j + 1) (by omega) a h

/-- All distances of the degenerate constant track are 0. -/
theorem constSamples_distance (i : ℕ) : distance constSamples i = 0 := by
  cases i with
  | zero => simp [distance, flatDistance, climb]
  | succ j => simp [distance, flatDistance, climb, constSamples]

/-- All periods of the degenerate constant track are 1. -/
theorem constSamples_period (i : ℕ) : period constSamples i = 1 := by
  cases i with
  | zero => rfl
  | succ j => simp [period, constSamples]

/-- Every derived speed of the degenerate constant track is 0, for any car. -/
theorem constSamples_speed (car : Car) : ∀ i, speed car constSamples i = some 0 := by
  intro i
  induction i with
  | zero =>
    rw [speed, if_neg (by rw [constSamples_period]; norm_num)]
    rw [constSamples_distance, constSamples_period]
    norm_num
  | succ j ih =>
    rw [speed, if_neg (by rw [constSamples_period]; norm_num)]
    rw [constSamples_distance, constSamples_period]
    norm_num [ih]

/-- Unfolding lemma for Point.speed at the first point. -/
theorem speed_zero_eq (car : Car) (s : ℕ → Sample) : speed car s 0 = some 0 := by
  have hd : distance s 0 = 0 := by simp [distance, flatDistance, climb]
  rw [speed, if_neg (by rw [period]; norm_num), hd, period]
  rcases le_or_lt car.maxSpeed 0 with h | h
  · rw [if_neg (by intro hc; norm_num at hc; linarith)]
  · rw [if_pos (by constructor <;> norm_num [h])]
    norm_num

/-- Unfolding lemma for Point.speed at a point with a previous point. -/
theorem speed_succ_eq (car : Car) (s : ℕ → Sample) (i : ℕ) :
    speed car s (i + 1) =
      if period s (i + 1) = 0 then none
      else if 0 ≤ distance s (i + 1) / period s (i + 1) ∧
          distance s (i + 1) / period s (i + 1) < car.maxSpeed then
        some (distance s (i + 1) / period s (i + 1))
      else speed car s i := by
  rw [speed]

/-- Unfolding lemma for Point.acceleration at index at least 2. -/
theorem acceleration_succ_succ_eq (car : Car) (s : ℕ → Sample) (i : ℕ) :
    acceleration car s (i + 2) =
      match speed car s (i + 2), speed car s (i + 1) with
      | some v, some v' =>
        if Earth.g / 2 < (v - v') / period s (i + 2) ∧
            (v - v') / period s (i + 2) < Earth.g / 2 then
          some ((v - v') / period s (i + 2))
        else acceleration car s (i + 1)
      | _, _ => none := by
  rw [acceleration]

/-- The default car's top speed is 1000/36 m/s. -/
theorem defaultCar_maxSpeed : defaultCar.maxSpeed = 1000 / 36 := by
  norm_num [defaultCar]

/-- All periods of the ramp track are 1. -/
theorem rampSamples_period (i : ℕ) : period rampSamples i = 1 := by
  cases i with
  | zero => rfl
  | succ j => simp [period, rampSamples]

/-- The distance into point 1 of the ramp track is 10 m. -/
theorem rampSamples_distance_one : distance rampSamples 1 = 10 := by
  have hf : flatDistance rampSamples 1 = 10 := by simp [flatDistance, rampSamples]
  have hc : climb rampSamples 1 = 0 := by simp [climb, rampSamples]
  rw [distance, hf, hc]
  rw [show (10 : ℝ) ^ 2 + 0 ^ 2 = 10 ^ 2 by norm_num]
  exact Real.sqrt_sq (by norm_num)

/-- The distance into point 2 of the ramp track is 12 m. -/
theorem rampSamples_distance_two : distance rampSamples 2 = 12 := by
  have hf : flatDistance rampSamples 2 = 12 := by simp [flatDistance, rampSamples]
  have hc : climb rampSamples 2 = 0 := by simp [climb, rampSamples]
  rw [distance, hf, hc]
  rw [show (12 : ℝ) ^ 2 + 0 ^ 2 = 12 ^ 2 by norm_num]
  exact Real.sqrt_sq (by norm_num)

/-- The derived speed at point 1 of the ramp track is 10 m/s. -/
theorem rampSamples_speed_one : speed defaultCar rampSamples 1 = some 10 := by
  have h := speed_succ_eq defaultCar rampSamples 0
  norm_num at h
  rw [h, rampSamples_period, rampSamples_distance_one, if_neg (by norm_num)]
  rw [if_pos (by rw [defaultCar_maxSpeed]; norm_num)]
  norm_num

/-- The derived speed at point 2 of the ramp track is 12 m/s. -/
theorem rampSamples_speed_two : speed defaultCar rampSamples 2 = some 12 := by
  have h := speed_succ_eq defaultCar rampSamples 1
  norm_num at h
  rw [h, rampSamples_period, rampSamples_distance_two, if_neg (by norm_num)]
  rw [if_pos (by rw [defaultCar_maxSpeed]; norm_num)]
  norm_num

/-- The distance into every later point of the fast track is 100 m. -/
theorem fastSamples_distance_succ (i : ℕ) : distance fastSamples (i + 1) = 100 := by
  have hf : flatDistance fastSamples (i + 1) = 100 := by simp [flatDistance, fastSamples]
  have hc : climb fastSamples (i + 1) = 0 := by simp [climb, fastSamples]
  rw [distance, hf, hc]
  rw [show (100 : ℝ) ^ 2 + 0 ^ 2 = 100 ^ 2 by norm_num]
  exact Real.sqrt_sq (by norm_num)

/-- All periods of the fast track are 1. -/
theorem fastSamples_period (i : ℕ) : period fastSamples i = 1 := by
  cases i with
  | zero => rfl
  | succ j => simp [period, fastSamples]

/-- Point 0 of any track has incline_sine 0: its distance is 0, the caught
division by zero leaves the sentinel 1, the plausibility test rejects it and
the first point's default 0 is used. -/
theorem inclineSine_zero (s : ℕ → Sample) : inclineSine s 0 = 0 := by
  have hd : distance s 0 = 0 := by simp [distance, flatDistance, climb]
  rw [inclineSine]
  rw [if_neg (by rw [sineRaw, if_pos hd]; norm_num)]

/-- Point 0 of any track has incline_cosine 1: its distance is 0, the caught
division by zero leaves the sentinel 0, the plausibility test rejects it and
the first point's default 1 is used. -/
theorem inclineCosine_zero (s : ℕ → Sample) : inclineCosine s 0 = 1 := by
  have hd : distance s 0 = 0 := by simp [distance, flatDistance, climb]
  rw [inclineCosine]
  rw [if_neg (by rw [cosineRaw, if_pos hd]; norm_num)]

/-- Point 0 of any track has acceleration 0 for any car. -/
theorem acceleration_zero_eq (car : Car) (s : ℕ → Sample) :
    acceleration car s 0 = some 0 := by
  rw [acceleration, if_neg (accel_guard_empty 0)]

/-- The battery-pack efficiency stored by `Car.__init__` for the
out-of-range properties dict is 1.5, exactly as supplied. -/
theorem badEfficiencyCar_battery : badEfficiencyCar.batteryPackEfficiency = 1.5 := by
  simp [badEfficiencyCar, carInit]

/-- The car built from the out-of-range properties dict violates the spec's
VehicleProfile invariant. -/
theorem badEfficiencyCar_invalid : ¬ specProfileValid badEfficiencyCar := by
  intro h
  have hb := h.2.2.2.2.1.2
  rw [badEfficiencyCar_battery] at hb
  norm_num at hb

/- ------------------------------------------------------------------ -/
/- Claim theorems.                                                     -/
/- ------------------------------------------------------------------ -/

/-- C8: for every car, track and point index, the fallback-resolved
acceleration is exactly 0 whenever it is computed at all (the acceptance
test `g/2 < acceleration < g/2` is an empty interval, so the fallback
branch always chains back to the index-0 default 0); consequently
acceleration_force is 0 whenever computed, and force degenerates to
air_drag + rolling_resistance + incline_force with no acceleration
contribution. -/
theorem c8_acceleration_always_zero (car : Car) (s : ℕ → Sample) (i : ℕ) :
    (acceleration car s i = none ∨ acceleration car s i = some 0) ∧
    (accelerationForce car s i = none ∨ accelerationForce car s i = some 0) ∧
    force car s i =
      (match airDrag car s i, acceleration car s i with
       | some d, some _ => some (d + rollingResistance car s i + inclineForce car s i)
       | _, _ => none) := by
  refine ⟨?_, ?_, ?_⟩
  · cases h : acceleration car s i with
    | none => exact Or.inl rfl
    | some a =>
      have ha := acceleration_eq_zero_of_some car s i a h
      subst ha
      exact Or.inr rfl
  · cases h : acceleration car s i with
    | none => exact Or.inl (by simp [accelerationForce, h])
    | some a =>
      have ha := acceleration_eq_zero_of_some car s i a h
      subst ha
      exact Or.inr (by simp [accelerationForce, h])
  · cases hd : airDrag car s i with
    | none =>
      cases ha : acceleration car s i with
      | none => simp [force, accelerationForce, hd, ha]
      | some a => simp [force, accelerationForce, hd, ha]
    | some d =>
      cases ha : acceleration car s i with
      | none => simp [force, accelerationForce, hd, ha]
      | some a =>
        have h0 := acceleration_eq_zero_of_some car s i a ha
        subst h0
        simp [force, accelerationForce, hd, ha]

/-- C1: the code contradicts the claimed acceleration plausibility rule.
On the concrete ramp track the derived speeds at points 1 and 2 are
10 m/s and 12 m/s, the raw acceleration (12-10)/period = 2 m/s^2 lies
strictly between -g/2 and g/2, yet the code's test `g/2 < a < g/2` rejects
it and point 2's acceleration resolves to the fallback value 0 instead of
the raw 2 required by the claim. -/
theorem c1_acceleration_plausibility_code_bug :
    speed defaultCar rampSamples 1 = some 10 ∧
    speed defaultCar rampSamples 2 = some 12 ∧
    -(Earth.g / 2) < ((12 : ℝ) - 10) / period rampSamples 2 ∧
    ((12 : ℝ) - 10) / period rampSamples 2 < Earth.g / 2 ∧
    acceleration defaultCar rampSamples 2 = some 0 ∧
    acceleration defaultCar rampSamples 2 ≠ some (((12 : ℝ) - 10) / period rampSamples 2) := by
  have hacc : acceleration defaultCar rampSamples 2 = some 0 := by
    have h := acceleration_succ_succ_eq defaultCar rampSamples 0
    norm_num at h
    rw [h, rampSamples_speed_two, rampSamples_speed_one]
    simp only
    rw [if_neg (accel_guard_empty _)]
    rw [acceleration, if_neg (accel_guard_empty 0), acceleration_zero_eq]
  refine ⟨rampSamples_speed_one, rampSamples_speed_two, ?_, ?_, hacc, ?_⟩
  · rw [rampSamples_period]; norm_num [Earth.g]
  · rw [rampSamples_period]; norm_num [Earth.g]
  · rw [hacc, rampSamples_period]
    intro hcontra
    have := Option.some_inj.mp hcontra
    norm_num at this

/-- C7: at any point whose segment distance is 0, the caught division by
zero resolves incline_sine to the previous point's incline_sine (0 at the
first point) and incline_cosine to the previous point's incline_cosine
(1 at the first point); no error escapes. -/
theorem c7_incline_zero_distance (s : ℕ → Sample) (i : ℕ)
    (h : distance s i = 0) :
    inclineSine s i = (if i = 0 then 0 else inclineSine s (i - 1)) ∧
    inclineCosine s i = (if i = 0 then 1 else inclineCosine s (i - 1)) := by
  cases i with
  | zero =>
    refine ⟨?_, ?_⟩
    · rw [inclineSine, if_neg (by rw [sineRaw, if_pos h]; norm_num), if_pos rfl]
    · rw [inclineCosine, if_neg (by rw [cosineRaw, if_pos h]; norm_num), if_pos rfl]
  | succ j =>
    refine ⟨?_, ?_⟩
    · rw [inclineSine, if_neg (by rw [sineRaw, if_pos h]; norm_num)]
      simp
    · rw [inclineCosine, if_neg (by rw [cosineRaw, if_pos h]; norm_num)]
      simp

/-- Witness for C7: point 1 of the degenerate constant track has distance
0, and both inclines resolve to the previous point's values. -/
theorem c7_witness :
    distance constSamples 1 = 0 ∧
    inclineSine constSamples 1 = (if (1 : ℕ) = 0 then 0 else inclineSine constSamples 0) ∧
    inclineCosine constSamples 1 = (if (1 : ℕ) = 0 then 1 else inclineCosine constSamples 0) :=
  ⟨constSamples_distance 1,
   (c7_incline_zero_distance constSamples 1 (constSamples_distance 1)).1,
   (c7_incline_zero_distance constSamples 1 (constSamples_distance 1)).2⟩

/-- C10: at any point after the first whose timestamp equals the previous
point's (period 0), the unguarded division `distance / period` in
Point.speed raises an unhandled ZeroDivisionError (`none`): the speed
fallback cannot intercept it, and it propagates through the derivation
chain to force and power_at_wheels. -/
theorem c10_zero_period_error (car : Car) (s : ℕ → Sample) (i : ℕ)
    (h : (s (i + 1)).time = (s i).time) :
    period s (i + 1) = 0 ∧
    speed car s (i + 1) = none ∧
    force car s (i + 1) = none ∧
    powerAtWheels car s (i + 1) = none := by
  have hp : period s (i + 1) = 0 := by rw [period, h, sub_self]
  have hs : speed car s (i + 1) = none := by rw [speed, if_pos hp]
  have hforce : force car s (i + 1) = none := by
    rw [force]
    have : airDrag car s (i + 1) = none := by rw [airDrag, hs]; rfl
    rw [this]
  refine ⟨hp, hs, hforce, ?_⟩
  rw [powerAtWheels, hforce]

/-- Witness for C10: the stuck-clock track repeats timestamp 0 at points 0
and 1; its point 1 has period 0 and an error for speed, force and
power_at_wheels. -/
theorem c10_witness :
    period stuckClockSamples 1 = 0 ∧
    speed defaultCar stuckClockSamples 1 = none ∧
    force defaultCar stuckClockSamples 1 = none ∧
    powerAtWheels defaultCar stuckClockSamples 1 = none :=
  c10_zero_period_error defaultCar stuckClockSamples 0 (by simp [stuckClockSamples])

/-- C5: whenever force and speed are derived without error,
power_at_wheels is their product `f * v`; it is returned normally exactly
when `f * v` lies inside the open interval
(-2 * rated_power, 1.2 * rated_power), and the sanity assertion fails
(SanityCheckError) exactly when it lies outside. -/
theorem c5_power_at_wheels (car : Car) (s : ℕ → Sample) (i : ℕ) (f v : ℝ)
    (hf : force car s i = some f) (hv : speed car s i = some v) :
    (-car.power * 2 < f * v ∧ f * v < car.power * 1.2 →
      powerAtWheels car s i = some (f * v)) ∧
    (¬ (-car.power * 2 < f * v ∧ f * v < car.power * 1.2) →
      powerAtWheels car s i = none) := by
  constructor
  · intro h
    rw [powerAtWheels, hf, hv]
    simp only
    rw [if_pos h]
  · intro h
    rw [powerAtWheels, hf, hv]
    simp only
    rw [if_neg h]

/-- Witness for C5: on the degenerate constant track with the default car
the force at point 0 is the pure rolling resistance 116.980402 N, the
speed is 0, their product 0 is inside the envelope and is returned. -/
theorem c5_witness : powerAtWheels defaultCar constSamples 0 = some 0 := by
  have hv : speed defaultCar constSamples 0 = some 0 := constSamples_speed defaultCar 0
  have hf : force defaultCar constSamples 0 = some 116.980402 := by
    rw [force, airDrag, hv, accelerationForce, acceleration_zero_eq]
    simp only [Option.map_some']
    rw [rollingResistance, inclineForce, inclineSine_zero, inclineCosine_zero]
    norm_num [Earth.airDensity, Car.cda, Car.weight, Earth.g, defaultCar]
  have h := (c5_power_at_wheels defaultCar constSamples 0 116.980402 0 hf hv).1
    (by norm_num [defaultCar])
  simpa using h

/-- C6: for every point after the first whose period is nonzero, the
derived speed is the raw quotient `distance / period` when that quotient
lies in [0, top_speed), and the previous point's fallback-resolved speed
otherwise; the first point's speed is 0. -/
theorem c6_speed_fallback (car : Car) (s : ℕ → Sample) (i : ℕ)
    (h : period s (i + 1) ≠ 0) :
    (0 ≤ distance s (i + 1) / period s (i + 1) ∧
        distance s (i + 1) / period s (i + 1) < car.maxSpeed →
      speed car s (i + 1) = some (distance s (i + 1) / period s (i + 1))) ∧
    (¬ (0 ≤ distance s (i + 1) / period s (i + 1) ∧
        distance s (i + 1) / period s (i + 1) < car.maxSpeed) →
      speed car s (i + 1) = speed car s i) ∧
    speed car s 0 = some 0 := by
  refine ⟨?_, ?_, speed_zero_eq car s⟩
  · intro hc
    rw [speed_succ_eq, if_neg h, if_pos hc]
  · intro hc
    rw [speed_succ_eq, if_neg h, if_neg hc]

/-- Witness for C6: on the ramp track the in-range raw quotient 10/1 is
accepted at point 1; on the fast track the raw quotient 100/1 exceeds the
default top speed 1000/36 and point 1 falls back to point 0's speed. -/
theorem c6_witness :
    speed defaultCar rampSamples 1 = some (distance rampSamples 1 / period rampSamples 1) ∧
    speed defaultCar fastSamples 1 = speed defaultCar fastSamples 0 := by
  constructor
  · have hc1 : 0 ≤ distance rampSamples 1 / period rampSamples 1 ∧
        distance rampSamples 1 / period rampSamples 1 < defaultCar.maxSpeed := by
      rw [rampSamples_distance_one, rampSamples_period, defaultCar_maxSpeed]
      norm_num
    exact (c6_speed_fallback defaultCar rampSamples 0
      (by rw [rampSamples_period]; norm_num)).1 hc1
  · have hd : distance fastSamples 1 = 100 := fastSamples_distance_succ 0
    have hc2 : ¬ (0 ≤ distance fastSamples 1 / period fastSamples 1 ∧
        distance fastSamples 1 / period fastSamples 1 < defaultCar.maxSpeed) := by
      rw [hd, fastSamples_period, defaultCar_maxSpeed]
      norm_num
    exact (c6_speed_fallback defaultCar fastSamples 0
      (by rw [fastSamples_period]; norm_num)).2.1 hc2

/-- C2 counterexample: `Car.__init__` accepts a properties dict with a
battery-pack efficiency of 1.5 without any error — the resulting profile
violates the spec's VehicleProfile invariant, yet a track is derived
against it normally (point 1's speed computes to 0). -/
theorem c2_counterexample :
    badEfficiencyCar.batteryPackEfficiency = 1.5 ∧
    ¬ specProfileValid badEfficiencyCar ∧
    speed badEfficiencyCar constSamples 1 = some 0 :=
  ⟨badEfficiencyCar_battery, badEfficiencyCar_invalid,
    constSamples_speed badEfficiencyCar 1⟩

/-- C2 amended: Car construction performs no validation at all — the car
built from an out-of-range efficiency violates the spec's profile
invariant, and for every properties dict whatsoever the constructed car
supports full point derivation of a track (every point of the constant
track derives speed 0 under it). -/
theorem c2_no_validation :
    ¬ specProfileValid badEfficiencyCar ∧
    ∀ (p : CarOverrides) (i : ℕ), speed (carInit p) constSamples i = some 0 :=
  ⟨badEfficiencyCar_invalid, fun p i => constSamples_speed (carInit p) i⟩

/-- C9: on a track with strictly increasing timestamps and a car with a
positive top speed, every point satisfies all three plausibility ranges at
once: its speed derives without error to a value in [0, top_speed), its
incline_sine lies in (-0.25, 0.25) and its incline_cosine in (0.75, 1];
the fallback rules and the index-0 defaults preserve the bounds
inductively along the track. -/
theorem c9_plausibility_invariant (car : Car) (s : ℕ → Sample)
    (htop : 0 < car.maxSpeed)
    (hmono : ∀ j, (s j).time < (s (j + 1)).time) :
    ∀ i, (∃ v, speed car s i = some v ∧ 0 ≤ v ∧ v < car.maxSpeed) ∧
      (-0.25 < inclineSine s i ∧ inclineSine s i < 0.25) ∧
      (0.75 < inclineCosine s i ∧ inclineCosine s i ≤ 1) := by
  intro i
  induction i with
  | zero =>
    refine ⟨⟨0, speed_zero_eq car s, le_refl 0, htop⟩, ?_, ?_⟩
    · rw [inclineSine_zero]; norm_num
    · rw [inclineCosine_zero]; norm_num
  | succ j ih =>
    have hp : period s (j + 1) ≠ 0 := by
      rw [period]
      intro hcontra
      have h2 := sub_eq_zero.mp hcontra
      have h := hmono j
      rw [h2] at h
      exact lt_irrefl _ h
    refine ⟨?_, ?_, ?_⟩
    · rw [speed_succ_eq, if_neg hp]
      by_cases hc : 0 ≤ distance s (j + 1) / period s (j + 1) ∧
          distance s (j + 1) / period s (j + 1) < car.maxSpeed
      · rw [if_pos hc]
        exact ⟨_, rfl, hc.1, hc.2⟩
      · rw [if_neg hc]
        exact ih.1
    · rw [inclineSine]
      by_cases hc : -0.25 < sineRaw s (j + 1) ∧ sineRaw s (j + 1) < 0.25
      · rw [if_pos hc]; exact hc
      · rw [if_neg hc]; exact ih.2.1
    · rw [inclineCosine]
      by_cases hc : 0.75 < cosineRaw s (j + 1) ∧ cosineRaw s (j + 1) ≤ 1
      · rw [if_pos hc]; exact hc
      · rw [if_neg hc]; exact ih.2.2

/-- Witness for C9: the degenerate constant track has strictly increasing
integer timestamps and the default car a positive top speed, so point 0
satisfies the incline plausibility ranges. -/
theorem c9_witness :
    (-0.25 < inclineSine constSamples 0 ∧ inclineSine constSamples 0 < 0.25) ∧
    (0.75 < inclineCosine constSamples 0 ∧ inclineCosine constSamples 0 ≤ 1) := by
  have hmono : ∀ j, (constSamples j).time < (constSamples (j + 1)).time := by
    intro j
    simp only [constSamples]
    push_cast
    linarith
  exact (c9_plausibility_invariant defaultCar constSamples
    (by rw [defaultCar_maxSpeed]; norm_num) hmono 0).2

/-- C3: the sliding-window scan yields exactly one window per start index
in the half-open range [0, n - width), each valued at the arithmetic mean
of the attribute over points [s, s + width); a track with at most `width`
points (including exactly `width`) yields no windows at all, and `max` or
`min` over the empty yield (the peak search) fails. -/
theorem c3_sliding_window {P : Type} {α : Type} [Field α] (points : List P)
    (attrib : P → α) (w : ℕ) (hw : 0 < w) :
    (slidingWindow points attrib w).length = points.length - w ∧
    (∀ s, s < points.length - w →
      (slidingWindow points attrib w).get? s =
        some ((((points.drop s).take w).map attrib).sum / (w : α),
          (points.drop s).take w)) ∧
    (points.length ≤ w → slidingWindow points attrib w = []) := by
  refine ⟨?_, ?_, ?_⟩
  · simp [slidingWindow]
  · intro s hs
    rw [slidingWindow, List.get?_map, List.get?_range hs]
    simp only [Option.map_some']
    have hlen : ((points.drop s).take w).length = w := by
      rw [List.length_take, List.length_drop]
      apply min_eq_left
      omega
    rw [List.length_map, hlen]
  · intro h
    have h0 : points.length - w = 0 := Nat.sub_eq_zero_of_le h
    rw [slidingWindow, h0]
    rfl

/-- Witness for C3: over a three-point track a window of width 3 (equal to
the point count) yields nothing, while the width-2 scan's first window is
the first two points with their mean. -/
theorem c3_witness :
    slidingWindow ([0, 1, 2] : List ℚ) id 3 = [] ∧
    (slidingWindow ([0, 1, 2] : List ℚ) id 2).get? 0 =
      some ((((([0, 1, 2] : List ℚ).drop 0).take 2).map id).sum / ((2 : ℕ) : ℚ),
        (([0, 1, 2] : List ℚ).drop 0).take 2) := by
  constructor
  · exact (c3_sliding_window ([0, 1, 2] : List ℚ) id 3 (by norm_num)).2.2 (by norm_num)
  · exact (c3_sliding_window ([0, 1, 2] : List ℚ) id 2 (by norm_num)).2.1 0 (by norm_num)

end Gpx2Energy
